import Mathlib

/-!
Shallow embedding of the pricing, validation and export core of
`src/app.py` (resortwear order-intake portal).

Conventions:
* Monetary amounts are rationals (`ℚ`).  Every literal amount in the
  source (2.0, 3.0, 3.50, 4.0, 5.0, 50.0) and every product with an
  integer quantity is exactly representable, so the float arithmetic of
  the source coincides with exact rational arithmetic on these values.
* Decoration methods, pricing tiers and size labels are strings, exactly
  as in the source (the code branches on string equality and has
  explicit fallback branches for unknown strings).
* Quantities are natural numbers: the grid widgets are
  `st.number_input(min_value=0, step=1)`, so every stored quantity is a
  non-negative integer, and the defensive `int(float(qty))` parse in the
  source is the identity on these values.
* Spreadsheet price cells can be numeric, NaN/None, the empty string, or
  a non-numeric string; `Cell` models these four shapes and `cellVal`
  models the `float(x) if pd.notna(x) and str(x) != '' else 0` pattern,
  returning `none` exactly when `float(..)` would raise.
-/

/-- The eight fixed size slots of a grid row
(`size_cols = ['XS','S','M','L','XL','2XL','3XL','4XL']`). -/
inductive Size where
  | XS | S | M | L | XL | X2L | X3L | X4L
deriving DecidableEq

/-- The size labels as the strings used by the source. -/
def sizeLabel : Size → String
  | .XS => "XS"
  | .S => "S"
  | .M => "M"
  | .L => "L"
  | .XL => "XL"
  | .X2L => "2XL"
  | .X3L => "3XL"
  | .X4L => "4XL"

/-- Canonical size order, as the repeated list literal
`['XS', 'S', 'M', 'L', 'XL', '2XL', '3XL', '4XL']` in the source. -/
def sizeCols : List Size :=
  [.XS, .S, .M, .L, .XL, .X2L, .X3L, .X4L]

/-- `size_index_map = {'XS': 0, 'S': 1, ..., '4XL': 7}` in
`pivot_grid_to_line_items`. -/
def sizeIdx : Size → Nat
  | .XS => 0
  | .S => 1
  | .M => 2
  | .L => 3
  | .XL => 4
  | .X2L => 5
  | .X3L => 6
  | .X4L => 7

/-- A spreadsheet cell as read through pandas: a numeric value, a
NaN/None, an empty string, or a non-numeric non-empty string. -/
inductive Cell where
  | num (q : ℚ)
  | na
  | empty
  | nonNum
deriving DecidableEq

/-- `float(x) if pd.notna(x) and str(x) != '' else 0`, with `none` for
the `ValueError`/`TypeError` raised by `float` on a non-numeric string. -/
def cellVal : Cell → Option ℚ
  | .num q => some q
  | .na => some 0
  | .empty => some 0
  | .nonNum => none

/-- Python's `str.strip()`: drop leading and trailing whitespace.
Defined over the character list so that it evaluates by kernel
reduction on concrete inputs. -/
def pyStrip (s : String) : String :=
  ⟨((s.data.dropWhile Char.isWhitespace).reverse.dropWhile Char.isWhitespace).reverse⟩

/-- One row of the Products sheet (`products_df`): the SKU key and the
seven price columns `SP 36, SP 72, EMB 36, EMB 72, APP 36, SUB 50,
LTH 50`.  A column missing from the sheet behaves as `row.get(col, 0)`,
i.e. as `Cell.num 0`. -/
structure CatalogRow where
  sku : String
  sp36 : Cell
  sp72 : Cell
  emb36 : Cell
  emb72 : Cell
  app36 : Cell
  sub50 : Cell
  lth50 : Cell
deriving DecidableEq

/-- `products_df[products_df['SKU'].astype(str).str.strip() == sku_clean]`
followed by `.iloc[0]`: the first row whose stripped SKU equals the
stripped query. -/
def findCatalogRow (catalog : List CatalogRow) (sku : String) : Option CatalogRow :=
  catalog.find? (fun r => (pyStrip r.sku) == (pyStrip sku))

/-- One row of the product grid.  Brand/description are carried along in
the source but never read by pricing/validation/export, so they are
omitted; quantities are the non-negative integers of the number inputs. -/
structure GridRow where
  sku : String
  color : String
  qty : Size → Nat

/-- The decoration option flags read from
`st.session_state.order_data['decoration']` by the pricing code. -/
structure Decoration where
  has_second_design : Bool
  confetti : Bool
  premium_4color : Bool
  design2_premium_4color : Bool

/-- `calculate_row_total`: total quantity of one grid row, summed over
the eight size columns. -/
def calculate_row_total (row : GridRow) : Nat :=
  (sizeCols.map row.qty).sum

/-- The `total_units` accumulator of the grid-rendering loop: the sum of
`calculate_row_total` over all rows (empty-SKU rows included, their
quantities being part of the sum). -/
def total_units_of (grid : List GridRow) : Nat :=
  (grid.map calculate_row_total).sum

/-- `calculate_pricing_tier(total_units, method)`. -/
def calculate_pricing_tier (total_units : Nat) (method : String) : String :=
  if method = "Screenprint" ∨ method = "Embroidery" then
    if 72 ≤ total_units then "72pc" else "36pc"
  else if method = "Applique" then "36pc"
  else if method = "Sublimated Patches" ∨ method = "Leather Patches" then "50pc"
  else "36pc"

/-- The tier actually used by the pricing-summary section: when
`total_units > 0` it calls `calculate_pricing_tier`, otherwise it picks
a method-based default (`'50pc'` for the patch methods, else `'36pc'`). -/
def site_pricing_tier (grid : List GridRow) (method : String) : String :=
  let total_units := total_units_of grid
  if 0 < total_units then calculate_pricing_tier total_units method
  else if method = "Sublimated Patches" ∨ method = "Leather Patches" then "50pc"
  else "36pc"

/-- `get_base_price(sku, method, pricing_tier)`: looks the SKU up in the
catalog, picks the price column for the method/tier, and parses it with
0.0 for NaN, empty, missing, or non-numeric cells. -/
def get_base_price (catalog : List CatalogRow) (sku method pricing_tier : String) : ℚ :=
  if catalog = [] ∨ sku = "" then 0
  else
    match findCatalogRow catalog sku with
    | none => 0
    | some row =>
      let cell : Option Cell :=
        if method = "Screenprint" then
          some (if pricing_tier = "72pc" then row.sp72 else row.sp36)
        else if method = "Embroidery" then
          some (if pricing_tier = "72pc" then row.emb72 else row.emb36)
        else if method = "Applique" then some row.app36
        else if method = "Sublimated Patches" then some row.sub50
        else if method = "Leather Patches" then some row.lth50
        else none
      match cell with
      | none => 0
      | some c => (cellVal c).getD 0

/-- `get_size_upcharge(size)`: the dictionary
`{'XS':0,'S':0,'M':0,'L':0,'XL':0,'2XL':3,'3XL':4,'4XL':5}` with default
0.0, keyed by the size label string. -/
def get_size_upcharge (size : String) : ℚ :=
  if size = "XS" then 0
  else if size = "S" then 0
  else if size = "M" then 0
  else if size = "L" then 0
  else if size = "XL" then 0
  else if size = "2XL" then 3
  else if size = "3XL" then 4
  else if size = "4XL" then 5
  else 0

/-- The per-unit decoration upcharge computed at the top of
`calculate_product_pricing`: option flags are first masked by the
method (`... and method == 'Screenprint'` etc.), then the applicable
amounts are accumulated. -/
def per_unit_upcharge (dec : Decoration) (method : String) : ℚ :=
  let hsd := dec.has_second_design && (method == "Screenprint")
  let conf := dec.confetti && (method == "Embroidery")
  let prem := dec.premium_4color && (method == "Screenprint")
  let d2p := dec.design2_premium_4color && hsd
  (if conf then 2 else 0) + (if prem then 2 else 0)
    + (if hsd then 7/2 else 0) + (if d2p then 2 else 0)

/-- The contribution of one grid row inside `calculate_product_pricing`:
rows with empty (stripped) SKU are skipped, rows whose base price is 0.0
are skipped, otherwise each size with positive quantity contributes
`(base_price + size_upcharge + per_unit_upcharge) * qty`. -/
def row_product_price (catalog : List CatalogRow) (method pricing_tier : String)
    (upcharge : ℚ) (row : GridRow) : ℚ :=
  if (pyStrip row.sku) = "" then 0
  else if get_base_price catalog (pyStrip row.sku) method pricing_tier = 0 then 0
  else
    (sizeCols.map (fun sz =>
      if 0 < row.qty sz then
        (get_base_price catalog (pyStrip row.sku) method pricing_tier
          + get_size_upcharge (sizeLabel sz) + upcharge) * (row.qty sz : ℚ)
      else 0)).sum

/-- `calculate_product_pricing(grid_list, method, pricing_tier,
total_units)`: returns 0.0 for an empty grid or zero total units, else
sums the per-row contributions with the order-wide per-unit upcharge. -/
def calculate_product_pricing (catalog : List CatalogRow) (dec : Decoration)
    (grid_list : List GridRow) (method pricing_tier : String)
    (total_units : Nat) : ℚ :=
  if grid_list.isEmpty ∨ total_units = 0 then 0
  else
    (grid_list.map
      (row_product_price catalog method pricing_tier (per_unit_upcharge dec method))).sum

/-- Lines 1731/1747 of the source: `art_setup_fee = art_setup_hours *
50.0` and `grand_total = product_total + art_setup_fee`.  The header's
freight/delivery charge is carried in the order state but does not occur
in this computation; it is kept as an (unused) argument to record that
fact. -/
def grand_total (catalog : List CatalogRow) (dec : Decoration)
    (grid : List GridRow) (method pricing_tier : String)
    (art_setup_hours freight_charge : ℚ) : ℚ :=
  calculate_product_pricing catalog dec grid method pricing_tier (total_units_of grid)
    + art_setup_hours * 50

/-! ## Gatekeeper validation (`is_sku_valid_for_method`) -/

/-- The `try`-block shared by the two-column methods: both cells are
parsed (a `ValueError` from either one lands in the `except`), then the
SKU is valid iff one parsed value is strictly positive. -/
def two_col_check (c1 c2 : Cell) (msg : String) : Bool × String :=
  match cellVal c1, cellVal c2 with
  | some a, some b => if 0 < a ∨ 0 < b then (true, "") else (false, msg)
  | _, _ => (false, msg)

/-- The `try`-block for the single-column methods. -/
def one_col_check (c : Cell) (msg : String) : Bool × String :=
  match cellVal c with
  | some a => if 0 < a then (true, "") else (false, msg)
  | none => (false, msg)

/-- `is_sku_valid_for_method(sku, method)`: permissive `True` for an
empty catalog, empty SKU, unknown SKU, or unknown method; otherwise the
method's price columns are checked for a strictly positive value. -/
def is_sku_valid_for_method (catalog : List CatalogRow) (sku method : String) :
    Bool × String :=
  if catalog.isEmpty ∨ sku = "" then (true, "")
  else
    match findCatalogRow catalog sku with
    | none => (true, "")
    | some row =>
      if method = "Screenprint" then
        two_col_check row.sp36 row.sp72
          ("SKU " ++ sku ++ " is not available for Screenprint (SP 36 and SP 72 are 0 or missing)")
      else if method = "Embroidery" then
        two_col_check row.emb36 row.emb72
          ("SKU " ++ sku ++ " is not available for Embroidery (EMB 36 and EMB 72 are 0 or missing)")
      else if method = "Applique" then
        one_col_check row.app36
          ("SKU " ++ sku ++ " is not available for Applique (APP 36 is 0 or missing)")
      else if method = "Sublimated Patches" then
        one_col_check row.sub50
          ("SKU " ++ sku ++ " is not available for Sublimated Patches (SUB 50 is 0 or missing)")
      else if method = "Leather Patches" then
        one_col_check row.lth50
          ("SKU " ++ sku ++ " is not available for Leather Patches (LTH 50 is 0 or missing)")
      else (true, "")

/-! ## Validation engine (`validate_order_before_submission`) -/

/-- The header fields of the order aggregate that the validator reads.
Dates are calendar dates modelled as integers (day numbers); `none` is
an unset date (a Python `date` object is always truthy, so the
`if a and b:` guards test exactly for presence). -/
structure Header where
  po_number : String
  customer : String
  shipping_address1 : String
  shipping_city : String
  shipping_state : String
  shipping_zip : String
  order_date : Option Int
  ship_date : Option Int
  drop_dead_date : Option Int

/-- The slice of `st.session_state.order_data` that
`validate_order_before_submission` reads. -/
structure OrderData where
  header : Header
  design_type : String
  method : String
  grid : List GridRow

/-- One conditional `errors.append(msg)`. -/
def errIf (c : Prop) [Decidable c] (msg : String) : List String :=
  if c then [msg] else []

/-- The `has_products` accumulator: some row has a non-empty stripped
SKU. -/
def validation_has_products (grid : List GridRow) : Bool :=
  grid.any (fun r => (pyStrip r.sku) != "")

/-- The `total_qty` accumulator: quantities are only summed inside the
`if row.get('SKU','').strip():` branch, i.e. over rows with a non-empty
SKU. -/
def validation_total_qty (grid : List GridRow) : Nat :=
  ((grid.filter (fun r => (pyStrip r.sku) != "")).map calculate_row_total).sum

/-- The product-grid section of the validator: no row with a SKU, or a
SKU present but zero total quantity. -/
def product_errors (grid : List GridRow) : List String :=
  if ¬ validation_has_products grid then
    ["At least one product (SKU) must be added"]
  else if validation_total_qty grid = 0 then
    ["At least one quantity must be entered for products"]
  else []

/-- One `if a and b: if b_val < a_val: errors.append(msg)` date check:
the error is emitted only when both dates are present and the second is
strictly earlier than the first. -/
def date_pair_err (d1 d2 : Option Int) (msg : String) : List String :=
  match d1, d2 with
  | some o, some s => if s < o then [msg] else []
  | _, _ => []

/-- `validate_order_before_submission()`: the blocking errors and
non-blocking warnings, appended in source order. -/
def validate_order_before_submission (od : OrderData) : List String × List String :=
  let h := od.header
  let errors :=
    errIf ((pyStrip h.po_number) = "") "PO# is required"
    ++ errIf (h.customer = "") "Customer is required"
    ++ errIf ((pyStrip h.shipping_address1) = "") "Shipping Address is required"
    ++ errIf ((pyStrip h.shipping_city) = "") "Shipping City is required"
    ++ errIf ((pyStrip h.shipping_state) = "") "Shipping State is required"
    ++ errIf ((pyStrip h.shipping_zip) = "") "Shipping Zip is required"
    ++ product_errors od.grid
    ++ errIf (od.design_type = "New Design" ∧ od.method = "")
        "Decoration Method is required for New Design"
    ++ date_pair_err h.order_date h.ship_date "Ship Date must be on or after Order Date"
    ++ date_pair_err h.order_date h.drop_dead_date
        "Drop Dead Date must be on or after Order Date"
    ++ date_pair_err h.ship_date h.drop_dead_date
        "Drop Dead Date must be on or after Ship Date"
  let warnings :=
    errIf (h.ship_date = none) "Ship Date is not set"
    ++ errIf (h.drop_dead_date = none) "Drop Dead Date is not set"
  (errors, warnings)

/-! ## Export transformer (`pivot_grid_to_line_items`) -/

/-- One record of the flat export. -/
structure LineItem where
  customerID : String
  itemCode : String
  colorCode : String
  sizeIndex : Nat
  size : String
  quantity : Nat
  price : ℚ
deriving DecidableEq

/-- The inner loop of `pivot_grid_to_line_items` for one grid row: rows
with an empty stripped SKU are skipped, and each size (in canonical
order) with positive quantity yields one line item with the placeholder
price 0.0. -/
def row_line_items (customer : String) (row : GridRow) : List LineItem :=
  if (pyStrip row.sku) = "" then []
  else
    sizeCols.filterMap (fun sz =>
      if 0 < row.qty sz then
        some { customerID := customer, itemCode := (pyStrip row.sku),
               colorCode := (pyStrip row.color), sizeIndex := sizeIdx sz,
               size := sizeLabel sz, quantity := row.qty sz, price := 0 }
      else none)

/-- `pivot_grid_to_line_items(grid_list)`: grid rows in order, canonical
size order within a row. -/
def pivot_grid_to_line_items (customer : String) : List GridRow → List LineItem
  | [] => []
  | row :: rest => row_line_items customer row ++ pivot_grid_to_line_items customer rest

/-! ## Submission numbering (`generate_submission_number`) -/

/-- `generate_submission_number()`: the session counter (`none` = not
yet initialised, in which case it is seeded with 1000) is incremented
and the new value is returned formatted as `"#" + N`, together with the
new counter state. -/
def generate_submission_number (counter_state : Option Nat) : String × Nat :=
  let counter := counter_state.getD 1000 + 1
  ("#" ++ toString counter, counter)

/-- The trace of `n` successive calls starting from the given counter
state, threading the updated counter through. -/
def run_submissions : Nat → Option Nat → List String
  | 0, _ => []
  | Nat.succ n, st =>
    let r := generate_submission_number st
    r.1 :: run_submissions n (some r.2)

/-! ## Spec-side definitions (transcribed from the specification's
wording, for the refinement claims) -/

/-- The size-upcharge table exactly as the spec words it:
$0 for XS/S/M/L/XL, $3 for 2XL, $4 for 3XL, $5 for 4XL. -/
def spec_size_upcharge : Size → ℚ
  | .X2L => 3
  | .X3L => 4
  | .X4L => 5
  | _ => 0

/-- Spec wording of a line's price: over the sizes with quantity > 0,
`(basePrice + sizeUpcharge + perUnitUpcharge) * qty`. -/
def spec_row_price (catalog : List CatalogRow) (dec : Decoration)
    (method pricing_tier : String) (row : GridRow) : ℚ :=
  ((sizeCols.filter (fun sz => decide (0 < row.qty sz))).map (fun sz =>
    (get_base_price catalog (pyStrip row.sku) method pricing_tier
      + spec_size_upcharge sz + per_unit_upcharge dec method) * (row.qty sz : ℚ))).sum

/-- Spec wording of the product total: the sum over all lines with
non-empty SKU and non-zero base price of the line prices. -/
def spec_product_total (catalog : List CatalogRow) (dec : Decoration)
    (grid : List GridRow) (method pricing_tier : String) : ℚ :=
  ((grid.filter (fun row =>
      decide ((pyStrip row.sku) ≠ "")
        && decide (get_base_price catalog (pyStrip row.sku) method pricing_tier ≠ 0))).map
    (spec_row_price catalog dec method pricing_tier)).sum

/-- The method's price-column list per the spec (Screenprint: SP36/SP72,
Embroidery: EMB36/EMB72, Applique: APP36, Sublimated Patches: SUB50,
Leather Patches: LTH50); `none` for a method outside the enum. -/
def method_price_cells (row : CatalogRow) (method : String) : Option (List Cell) :=
  if method = "Screenprint" then some [row.sp36, row.sp72]
  else if method = "Embroidery" then some [row.emb36, row.emb72]
  else if method = "Applique" then some [row.app36]
  else if method = "Sublimated Patches" then some [row.sub50]
  else if method = "Leather Patches" then some [row.lth50]
  else none

/-- The amended gatekeeper predicate: permissive `true` for an empty
catalog, empty SKU, unknown SKU, or unknown method; otherwise valid iff
every price cell of the method parses numerically AND at least one of
them is strictly positive (a non-numeric cell makes the SKU invalid for
that method, it is NOT treated as 0). -/
def amended_sku_valid (catalog : List CatalogRow) (sku method : String) : Bool :=
  if catalog.isEmpty ∨ sku = "" then true
  else
    match findCatalogRow catalog sku with
    | none => true
    | some row =>
      match method_price_cells row method with
      | none => true
      | some cells =>
        if cells.all (fun c => (cellVal c).isSome) then
          cells.any (fun c => decide (0 < (cellVal c).getD 0))
        else false

/-! ## Helper lemmas -/

lemma sum_map_ite_eq_sum_filter_map {α : Type} (l : List α) (p : α → Prop)
    [DecidablePred p] (f : α → ℚ) :
    (l.map (fun x => if p x then f x else 0)).sum
      = ((l.filter (fun x => decide (p x))).map f).sum := by
  induction l with
  | nil => simp
  | cons a t ih =>
    by_cases h : p a <;> simp [h, ih]

lemma get_size_upcharge_label (sz : Size) :
    get_size_upcharge (sizeLabel sz) = spec_size_upcharge sz := by
  cases sz <;> rfl

lemma mem_sizeCols (sz : Size) : sz ∈ sizeCols := by
  cases sz <;> simp [sizeCols]

lemma nat_sum_eq_zero {l : List Nat} (h : l.sum = 0) : ∀ x ∈ l, x = 0 := by
  induction l with
  | nil => simp
  | cons a t ih =>
    simp only [List.sum_cons] at h
    intro x hx
    rcases List.mem_cons.mp hx with rfl | hxt
    · omega
    · exact ih (by omega) x hxt

lemma total_units_zero_qty {grid : List GridRow} (h : total_units_of grid = 0) :
    ∀ row ∈ grid, ∀ sz : Size, row.qty sz = 0 := by
  intro row hrow sz
  have hrt : calculate_row_total row = 0 :=
    nat_sum_eq_zero h _ (List.mem_map_of_mem calculate_row_total hrow)
  exact nat_sum_eq_zero hrt _ (List.mem_map_of_mem row.qty (mem_sizeCols sz))

lemma mem_errIf {a msg : String} {c : Prop} [Decidable c] :
    a ∈ errIf c msg ↔ c ∧ a = msg := by
  unfold errIf
  split <;> rename_i h <;> simp [h]

lemma mem_product_errors {a : String} {grid : List GridRow} :
    a ∈ product_errors grid ↔
      (¬ validation_has_products grid
        ∧ a = "At least one product (SKU) must be added")
      ∨ (validation_has_products grid ∧ validation_total_qty grid = 0
        ∧ a = "At least one quantity must be entered for products") := by
  unfold product_errors
  split <;> rename_i h
  · simp [h]
  · rw [not_not] at h
    split <;> rename_i h2 <;> simp [h, h2]

lemma mem_date_pair_err {a msg : String} {d1 d2 : Option Int} :
    a ∈ date_pair_err d1 d2 msg
      ↔ (∃ o s, d1 = some o ∧ d2 = some s ∧ s < o) ∧ a = msg := by
  cases d1 <;> cases d2 <;> simp [date_pair_err]

/-! ## Claims -/

/-- C2: the pricing tier is `72pc` for Screenprint/Embroidery at 72 or
more total units and `36pc` below, always `36pc` for Applique, always
`50pc` for the two patch methods; `tier(71,SP)=36pc`, `tier(72,SP)=72pc`;
and the tier the page uses is the one computed from the total of all
quantities of the whole grid, before any tier-dependent pricing. -/
theorem tier_classification (n : Nat) (method : String) (grid : List GridRow)
    (h : method = "Screenprint" ∨ method = "Embroidery") :
    calculate_pricing_tier n method = (if 72 ≤ n then "72pc" else "36pc")
    ∧ calculate_pricing_tier n "Applique" = "36pc"
    ∧ calculate_pricing_tier n "Sublimated Patches" = "50pc"
    ∧ calculate_pricing_tier n "Leather Patches" = "50pc"
    ∧ calculate_pricing_tier 71 "Screenprint" = "36pc"
    ∧ calculate_pricing_tier 72 "Screenprint" = "72pc"
    ∧ site_pricing_tier grid method = calculate_pricing_tier (total_units_of grid) method := by
  refine ⟨?_, by simp [calculate_pricing_tier], by simp [calculate_pricing_tier],
    by simp [calculate_pricing_tier], by decide, by decide, ?_⟩
  · rcases h with rfl | rfl <;> simp [calculate_pricing_tier]
  · unfold site_pricing_tier
    by_cases h0 : 0 < total_units_of grid
    · simp [h0]
    · have hz : total_units_of grid = 0 := by omega
      rcases h with rfl | rfl <;> simp [h0, hz, calculate_pricing_tier]

/-- Witness for the hypothesis of `tier_classification`. -/
theorem tier_classification_witness :
    calculate_pricing_tier 80 "Screenprint" = (if 72 ≤ 80 then "72pc" else "36pc") :=
  (tier_classification 80 "Screenprint" [] (Or.inl rfl)).1

/-- C10: `calculate_pricing_tier` is total over arbitrary method
strings: any method outside the five-value enum falls through to the
default `'36pc'` branch, whatever the unit count. -/
theorem tier_default_for_unknown_method (n : Nat) (method : String)
    (h : method ≠ "Screenprint" ∧ method ≠ "Embroidery" ∧ method ≠ "Applique"
      ∧ method ≠ "Sublimated Patches" ∧ method ≠ "Leather Patches") :
    calculate_pricing_tier n method = "36pc" := by
  obtain ⟨h1, h2, h3, h4, h5⟩ := h
  simp [calculate_pricing_tier, h1, h2, h3, h4, h5]

/-- Witness for the hypothesis of `tier_default_for_unknown_method`. -/
theorem tier_default_for_unknown_method_witness :
    calculate_pricing_tier 999 "Garbage" = "36pc" :=
  tier_default_for_unknown_method 999 "Garbage"
    (by refine ⟨?_, ?_, ?_, ?_, ?_⟩ <;> decide)

/-- C3: the order-wide per-unit upcharge is the sum of $2.00 for
confetti under Embroidery, $2.00 for premium-4-color under Screenprint,
$3.50 for a second design under Screenprint, and a further $2.00 for a
premium-4-color second design under Screenprint; flags of a different
method contribute nothing, and all three Screenprint flags together
give exactly $7.50. -/
theorem per_unit_upcharge_formula (dec : Decoration) (method : String) :
    per_unit_upcharge dec method
      = (if dec.confetti = true ∧ method = "Embroidery" then 2 else 0)
        + (if dec.premium_4color = true ∧ method = "Screenprint" then 2 else 0)
        + (if dec.has_second_design = true ∧ method = "Screenprint" then 7/2 else 0)
        + (if dec.design2_premium_4color = true ∧ dec.has_second_design = true
            ∧ method = "Screenprint" then 2 else 0)
    ∧ per_unit_upcharge
        { has_second_design := true, confetti := false,
          premium_4color := true, design2_premium_4color := true } "Screenprint" = 15/2
    ∧ per_unit_upcharge
        { has_second_design := false, confetti := true,
          premium_4color := false, design2_premium_4color := false } "Screenprint" = 0
    ∧ per_unit_upcharge
        { has_second_design := false, confetti := false,
          premium_4color := true, design2_premium_4color := false } "Embroidery" = 0 := by
  refine ⟨?_, by norm_num [per_unit_upcharge],
    by norm_num [per_unit_upcharge] <;> decide,
    by norm_num [per_unit_upcharge] <;> decide⟩
  obtain ⟨hsd, conf, prem, d2p⟩ := dec
  by_cases hS : method = "Screenprint"
  · have hE : ¬ method = "Embroidery" := by rw [hS]; decide
    cases hsd <;> cases conf <;> cases prem <;> cases d2p <;>
      simp [per_unit_upcharge, hS, hE]
  · by_cases hE : method = "Embroidery"
    · cases hsd <;> cases conf <;> cases prem <;> cases d2p <;>
        simp [per_unit_upcharge, hS, hE]
    · cases hsd <;> cases conf <;> cases prem <;> cases d2p <;>
        simp [per_unit_upcharge, hS, hE]

/-- The counter trace from a known counter value: call `i` (0-based)
returns `"#" ++ toString (c + 1 + i)`. -/
lemma run_submissions_from (n : Nat) :
    ∀ c : Nat, run_submissions n (some c)
      = (List.range n).map (fun i => "#" ++ toString (c + 1 + i)) := by
  induction n with
  | zero => intro c; simp [run_submissions]
  | succ n ih =>
    intro c
    rw [List.range_succ_eq_map, List.map_cons, List.map_map]
    show ("#" ++ toString (c + 1)) :: run_submissions n (some (c + 1)) = _
    rw [ih (c + 1)]
    refine congrArg₂ _ (by norm_num) ?_
    refine List.map_congr_left fun i _ => ?_
    have : c + 1 + 1 + i = c + 1 + (i + 1) := by omega
    simp [Function.comp, this]

lemma two_col_check_eq (c1 c2 : Cell) (msg : String) :
    (two_col_check c1 c2 msg).1
      = (if [c1, c2].all (fun c => (cellVal c).isSome) then
          [c1, c2].any (fun c => decide (0 < (cellVal c).getD 0))
        else false) := by
  unfold two_col_check
  cases h1 : cellVal c1 <;> cases h2 : cellVal c2 <;>
    simp [List.all_cons, List.any_cons, h1, h2]
  rename_i a b
  by_cases h : (0 : ℚ) < a ∨ 0 < b
  · rcases h with h | h <;> simp [h]
  · push_neg at h
    simp [h.1.not_lt, h.2.not_lt]

lemma one_col_check_eq (c : Cell) (msg : String) :
    (one_col_check c msg).1
      = (if [c].all (fun x => (cellVal x).isSome) then
          [c].any (fun x => decide (0 < (cellVal x).getD 0))
        else false) := by
  unfold one_col_check
  cases h1 : cellVal c <;> simp [List.all_cons, List.any_cons, h1]
  rename_i a
  by_cases h : (0 : ℚ) < a <;> simp [h]

/-- C4 counterexample: a SKU whose SP 36 cell is non-numeric but whose
SP 72 cell is the strictly positive 5.0 is rejected for Screenprint by
the code (`float('...')` raises inside the `try`, the `except` returns
`False`), while the claim says it "is still valid for Screenprint". -/
theorem sku_gatekeeper_nonnumeric_counterexample :
    cellVal (CatalogRow.mk "A" Cell.nonNum (Cell.num 5)
        (Cell.num 0) (Cell.num 0) (Cell.num 0) (Cell.num 0) (Cell.num 0)).sp36 = none
    ∧ cellVal (CatalogRow.mk "A" Cell.nonNum (Cell.num 5)
        (Cell.num 0) (Cell.num 0) (Cell.num 0) (Cell.num 0) (Cell.num 0)).sp72 = some 5
    ∧ (0 : ℚ) < 5
    ∧ (is_sku_valid_for_method
        [CatalogRow.mk "A" Cell.nonNum (Cell.num 5)
          (Cell.num 0) (Cell.num 0) (Cell.num 0) (Cell.num 0) (Cell.num 0)]
        "A" "Screenprint").1 = false := by
  refine ⟨rfl, rfl, by norm_num, ?_⟩
  decide

/-- C4 amended: `is_sku_valid_for_method` returns `true` for an empty
catalog, empty SKU, unknown SKU, or unknown method; otherwise it is
valid iff every price cell of the method's columns parses numerically
AND at least one parses strictly positive — a non-numeric cell among
the method's columns makes the SKU invalid for that method rather than
being treated as 0 (NaN, empty and missing cells are still treated
as 0). -/
theorem sku_gatekeeper_amended (catalog : List CatalogRow) (sku method : String) :
    (is_sku_valid_for_method catalog sku method).1
      = amended_sku_valid catalog sku method := by
  unfold is_sku_valid_for_method amended_sku_valid
  by_cases h0 : (catalog.isEmpty ∨ sku = "")
  · rw [if_pos h0, if_pos h0]
  · rw [if_neg h0, if_neg h0]
    cases hf : findCatalogRow catalog sku with
    | none => rfl
    | some row =>
      simp only
      by_cases hm1 : method = "Screenprint"
      · simp only [hm1, method_price_cells, if_pos rfl]
        exact two_col_check_eq row.sp36 row.sp72 _
      · rw [if_neg hm1]
        by_cases hm2 : method = "Embroidery"
        · simp only [hm2, method_price_cells, if_neg hm1, if_pos rfl]
          exact two_col_check_eq row.emb36 row.emb72 _
        · rw [if_neg hm2]
          by_cases hm3 : method = "Applique"
          · simp only [hm3, method_price_cells, if_neg hm1, if_neg hm2, if_pos rfl]
            exact one_col_check_eq row.app36 _
          · rw [if_neg hm3]
            by_cases hm4 : method = "Sublimated Patches"
            · simp only [hm4, method_price_cells, if_neg hm1, if_neg hm2, if_neg hm3,
                if_pos rfl]
              exact one_col_check_eq row.sub50 _
            · rw [if_neg hm4]
              by_cases hm5 : method = "Leather Patches"
              · simp only [hm5, method_price_cells, if_neg hm1, if_neg hm2, if_neg hm3,
                  if_neg hm4, if_pos rfl]
                exact one_col_check_eq row.lth50 _
              · rw [if_neg hm5]
                simp only [method_price_cells, if_neg hm1, if_neg hm2, if_neg hm3,
                  if_neg hm4, if_neg hm5]

/-- The sum of per-row code contributions equals the spec's
filtered-line sum: rows with empty SKU or zero base price contribute 0
and are exactly the rows the spec's filter drops. -/
lemma product_sum_eq_spec (catalog : List CatalogRow) (dec : Decoration)
    (method pricing_tier : String) (grid : List GridRow) :
    (grid.map
        (row_product_price catalog method pricing_tier (per_unit_upcharge dec method))).sum
      = spec_product_total catalog dec grid method pricing_tier := by
  induction grid with
  | nil => simp [spec_product_total]
  | cons r t ih =>
    rw [List.map_cons, List.sum_cons, ih]
    unfold spec_product_total
    by_cases h1 : (pyStrip r.sku) = ""
    · rw [List.filter_cons_of_neg (by simp [h1])]
      simp [row_product_price, h1, spec_product_total]
    · by_cases h2 : get_base_price catalog (pyStrip r.sku) method pricing_tier = 0
      · rw [List.filter_cons_of_neg (by simp [h1, h2])]
        simp [row_product_price, h1, h2, spec_product_total]
      · rw [List.filter_cons_of_pos (by simp [h1, h2]), List.map_cons, List.sum_cons]
        have hrow : row_product_price catalog method pricing_tier
            (per_unit_upcharge dec method) r
            = spec_row_price catalog dec method pricing_tier r := by
          unfold row_product_price spec_row_price
          rw [if_neg h1, if_neg h2]
          rw [sum_map_ite_eq_sum_filter_map sizeCols (fun sz => 0 < r.qty sz)]
          exact congrArg List.sum (List.map_congr_left fun sz _ => by
            rw [get_size_upcharge_label])
        rw [hrow]

/-- C1: the product total is exactly the spec's sum — over lines with
non-empty SKU and non-zero base price and over sizes with positive
quantity — of `(basePrice + sizeUpcharge + perUnitUpcharge) * qty`
(zero-base-price lines silently contribute nothing), the grand total is
that product total plus `art_setup_hours * $50.00`, and the header
freight/delivery charge is never added to the grand total. -/
theorem pricing_totals_match_spec (catalog : List CatalogRow) (dec : Decoration)
    (grid : List GridRow) (method pricing_tier : String) (hours freight : ℚ) :
    calculate_product_pricing catalog dec grid method pricing_tier (total_units_of grid)
      = spec_product_total catalog dec grid method pricing_tier
    ∧ grand_total catalog dec grid method pricing_tier hours freight
      = spec_product_total catalog dec grid method pricing_tier + hours * 50
    ∧ (∀ f1 f2 : ℚ, grand_total catalog dec grid method pricing_tier hours f1
        = grand_total catalog dec grid method pricing_tier hours f2) := by
  have hmain : calculate_product_pricing catalog dec grid method pricing_tier
      (total_units_of grid) = spec_product_total catalog dec grid method pricing_tier := by
    unfold calculate_product_pricing
    by_cases hg : grid.isEmpty
    · obtain rfl : grid = [] := List.isEmpty_iff.mp hg
      simp [spec_product_total]
    · by_cases ht : total_units_of grid = 0
      · rw [if_pos (Or.inr ht)]
        symm
        unfold spec_product_total
        apply List.sum_eq_zero
        intro x hx
        rw [List.mem_map] at hx
        obtain ⟨row, hrow, rfl⟩ := hx
        have hq := total_units_zero_qty ht row (List.mem_of_mem_filter hrow)
        unfold spec_row_price
        rw [List.filter_eq_nil_iff.mpr (fun sz _ => by simp [hq sz])]
        rfl
      · rw [if_neg (by simp [hg, ht])]
        exact product_sum_eq_spec catalog dec method pricing_tier grid
  exact ⟨hmain, by unfold grand_total; rw [hmain], fun f1 f2 => rfl⟩

/-- Total product pricing is invariant under permutation of the grid's
lines (with the total-units argument recomputed from the permuted grid,
as the page does). -/
lemma pricing_perm_invariant (catalog : List CatalogRow) (dec : Decoration)
    (method pricing_tier : String) {g1 g2 : List GridRow} (hp : g1.Perm g2) :
    calculate_product_pricing catalog dec g1 method pricing_tier (total_units_of g1)
      = calculate_product_pricing catalog dec g2 method pricing_tier (total_units_of g2) := by
  have htu : total_units_of g1 = total_units_of g2 :=
    (hp.map calculate_row_total).sum_eq
  have hie : g1.isEmpty = g2.isEmpty := by
    cases hg1 : g1 with
    | nil =>
      rw [hg1] at hp
      rw [hp.symm.eq_nil]
    | cons a t =>
      cases hg2 : g2 with
      | nil =>
        rw [hg1, hg2] at hp
        exact absurd hp.eq_nil (by simp)
      | cons b u => rfl
  unfold calculate_product_pricing
  rw [htu, hie]
  by_cases hc : (g2.isEmpty ∨ total_units_of g2 = 0)
  · rw [if_pos hc, if_pos hc]
  · rw [if_neg hc, if_neg hc]
    exact (hp.map _).sum_eq

/-- A row whose quantities are reordered among the zero-upcharge slots
XS/S/M/L/XL (2XL/3XL/4XL held fixed, SKU unchanged) has the same row
total. -/
lemma row_total_reorder {r1 r2 : GridRow}
    (h2xl : r2.qty Size.X2L = r1.qty Size.X2L)
    (h3xl : r2.qty Size.X3L = r1.qty Size.X3L)
    (h4xl : r2.qty Size.X4L = r1.qty Size.X4L)
    (hfive : [r2.qty Size.XS, r2.qty Size.S, r2.qty Size.M, r2.qty Size.L,
        r2.qty Size.XL].Perm
      [r1.qty Size.XS, r1.qty Size.S, r1.qty Size.M, r1.qty Size.L, r1.qty Size.XL]) :
    calculate_row_total r2 = calculate_row_total r1 := by
  have hsum := hfive.sum_eq
  simp only [List.sum_cons, List.sum_nil] at hsum
  simp only [calculate_row_total, sizeCols, List.map_cons, List.map_nil,
    List.sum_cons, List.sum_nil]
  omega

/-- A row whose quantities are reordered among the zero-upcharge slots
has the same per-row price contribution. -/
lemma row_product_price_reorder (catalog : List CatalogRow)
    (method pricing_tier : String) (upcharge : ℚ) {r1 r2 : GridRow}
    (hsku : r2.sku = r1.sku)
    (h2xl : r2.qty Size.X2L = r1.qty Size.X2L)
    (h3xl : r2.qty Size.X3L = r1.qty Size.X3L)
    (h4xl : r2.qty Size.X4L = r1.qty Size.X4L)
    (hfive : [r2.qty Size.XS, r2.qty Size.S, r2.qty Size.M, r2.qty Size.L,
        r2.qty Size.XL].Perm
      [r1.qty Size.XS, r1.qty Size.S, r1.qty Size.M, r1.qty Size.L, r1.qty Size.XL]) :
    row_product_price catalog method pricing_tier upcharge r2
      = row_product_price catalog method pricing_tier upcharge r1 := by
  unfold row_product_price
  rw [hsku]
  by_cases h1 : (pyStrip r1.sku) = ""
  · simp [h1]
  · rw [if_neg h1, if_neg h1]
    by_cases h2 : get_base_price catalog (pyStrip r1.sku) method pricing_tier = 0
    · rw [if_pos h2, if_pos h2]
    · rw [if_neg h2, if_neg h2]
      have hsum := (hfive.map (fun q : Nat =>
        if 0 < q then
          (get_base_price catalog (pyStrip r1.sku) method pricing_tier + upcharge) * (q : ℚ)
        else 0)).sum_eq
      simp only [List.map_cons, List.map_nil, List.sum_cons, List.sum_nil] at hsum
      simp only [sizeCols, List.map_cons, List.map_nil, List.sum_cons, List.sum_nil,
        sizeLabel, get_size_upcharge, h2xl, h3xl, h4xl]
      norm_num
      linarith [hsum]

/-- C9: the product total (hence the grand total) is unchanged by any
permutation of the grid's lines, and unchanged when a line's quantities
are reordered among the size slots carrying the same size upcharge (the
zero-upcharge slots XS/S/M/L/XL; 2XL, 3XL and 4XL each form a singleton
upcharge class and stay fixed). -/
theorem pricing_order_invariance (catalog : List CatalogRow) (dec : Decoration)
    (method pricing_tier : String) (hours freight : ℚ)
    (g1 g2 pre post : List GridRow) (r1 r2 : GridRow)
    (hperm : g1.Perm g2)
    (hsku : r2.sku = r1.sku)
    (h2xl : r2.qty Size.X2L = r1.qty Size.X2L)
    (h3xl : r2.qty Size.X3L = r1.qty Size.X3L)
    (h4xl : r2.qty Size.X4L = r1.qty Size.X4L)
    (hfive : [r2.qty Size.XS, r2.qty Size.S, r2.qty Size.M, r2.qty Size.L,
        r2.qty Size.XL].Perm
      [r1.qty Size.XS, r1.qty Size.S, r1.qty Size.M, r1.qty Size.L, r1.qty Size.XL]) :
    calculate_product_pricing catalog dec g1 method pricing_tier (total_units_of g1)
      = calculate_product_pricing catalog dec g2 method pricing_tier (total_units_of g2)
    ∧ grand_total catalog dec g1 method pricing_tier hours freight
      = grand_total catalog dec g2 method pricing_tier hours freight
    ∧ calculate_product_pricing catalog dec (pre ++ r1 :: post) method pricing_tier
        (total_units_of (pre ++ r1 :: post))
      = calculate_product_pricing catalog dec (pre ++ r2 :: post) method pricing_tier
        (total_units_of (pre ++ r2 :: post))
    ∧ grand_total catalog dec (pre ++ r1 :: post) method pricing_tier hours freight
      = grand_total catalog dec (pre ++ r2 :: post) method pricing_tier hours freight := by
  have hrowt : calculate_row_total r2 = calculate_row_total r1 :=
    row_total_reorder h2xl h3xl h4xl hfive
  have hrowp := row_product_price_reorder catalog method pricing_tier
    (per_unit_upcharge dec method) hsku h2xl h3xl h4xl hfive
  have h1 : calculate_product_pricing catalog dec g1 method pricing_tier
      (total_units_of g1)
      = calculate_product_pricing catalog dec g2 method pricing_tier
        (total_units_of g2) :=
    pricing_perm_invariant catalog dec method pricing_tier hperm
  have htu : total_units_of (pre ++ r1 :: post) = total_units_of (pre ++ r2 :: post) := by
    simp only [total_units_of, List.map_append, List.map_cons, List.sum_append,
      List.sum_cons, hrowt]
  have h3 : calculate_product_pricing catalog dec (pre ++ r1 :: post) method pricing_tier
      (total_units_of (pre ++ r1 :: post))
      = calculate_product_pricing catalog dec (pre ++ r2 :: post) method pricing_tier
        (total_units_of (pre ++ r2 :: post)) := by
    unfold calculate_product_pricing
    rw [htu]
    have hne : ((pre ++ r2 :: post).isEmpty) = ((pre ++ r1 :: post).isEmpty) := by
      cases pre <;> rfl
    rw [hne]
    by_cases hc : ((pre ++ r1 :: post).isEmpty ∨ total_units_of (pre ++ r2 :: post) = 0)
    · rw [if_pos hc, if_pos hc]
    · rw [if_neg hc, if_neg hc]
      simp only [List.map_append, List.map_cons, List.sum_append, List.sum_cons, hrowp]
  exact ⟨h1, by unfold grand_total; rw [h1], h3, by unfold grand_total; rw [h3]⟩

/-- Witness for the hypotheses of `pricing_order_invariance`: two
concrete lines swapped, and XS/S quantities 3 and 5 exchanged within a
line. -/
theorem pricing_order_invariance_witness :
    calculate_product_pricing [] ⟨false, false, false, false⟩
        [⟨"B", "Red", fun _ => 1⟩, ⟨"A", "Blue", fun _ => 2⟩] "Screenprint" "36pc"
        (total_units_of [⟨"B", "Red", fun _ => 1⟩, ⟨"A", "Blue", fun _ => 2⟩])
      = calculate_product_pricing [] ⟨false, false, false, false⟩
        [⟨"A", "Blue", fun _ => 2⟩, ⟨"B", "Red", fun _ => 1⟩] "Screenprint" "36pc"
        (total_units_of [⟨"A", "Blue", fun _ => 2⟩, ⟨"B", "Red", fun _ => 1⟩]) := by
  have h := pricing_order_invariance [] ⟨false, false, false, false⟩ "Screenprint" "36pc"
    0 0 [⟨"B", "Red", fun _ => 1⟩, ⟨"A", "Blue", fun _ => 2⟩]
    [⟨"A", "Blue", fun _ => 2⟩, ⟨"B", "Red", fun _ => 1⟩] [] []
    ⟨"C", "Green", fun sz => if sz = Size.XS then 3 else if sz = Size.S then 5 else 0⟩
    ⟨"C", "Green", fun sz => if sz = Size.XS then 5 else if sz = Size.S then 3 else 0⟩
    (List.Perm.swap _ _ _) rfl rfl rfl rfl (by decide)
  exact h.1

/-- A grid row with SKU `TS100` and ten size-M pieces, used as a
concrete validator input. -/
def exampleGridRow : GridRow :=
  ⟨"TS100", "Black", fun sz => if sz = Size.M then 10 else 0⟩

/-- A populated order whose ship date (day 3) precedes its order date
(day 5) and whose drop-dead date (day 4) also precedes the order date. -/
def lateShipOrder : OrderData :=
  { header :=
      { po_number := "P1", customer := "Acme",
        shipping_address1 := "1 Main St", shipping_city := "Tampa",
        shipping_state := "FL", shipping_zip := "33601",
        order_date := some 5, ship_date := some 3, drop_dead_date := some 4 },
    design_type := "New Design", method := "Screenprint",
    grid := [exampleGridRow] }

/-- A populated order with no ship date, order date day 10, and
drop-dead date day 2 (earlier than the order date). -/
def noShipOrder : OrderData :=
  { header :=
      { po_number := "P2", customer := "Acme",
        shipping_address1 := "1 Main St", shipping_city := "Tampa",
        shipping_state := "FL", shipping_zip := "33601",
        order_date := some 10, ship_date := none, drop_dead_date := some 2 },
    design_type := "New Design", method := "Screenprint",
    grid := [exampleGridRow] }

/-- A populated order with no drop-dead date. -/
def noDropDeadOrder : OrderData :=
  { header :=
      { po_number := "P3", customer := "Acme",
        shipping_address1 := "1 Main St", shipping_city := "Tampa",
        shipping_state := "FL", shipping_zip := "33601",
        order_date := some 1, ship_date := some 2, drop_dead_date := none },
    design_type := "New Design", method := "Screenprint",
    grid := [exampleGridRow] }

/-- C7: each of the three date errors is reported whenever its pair of
dates is present and out of order (calendar-date comparison); an unset
ship date yields only the non-blocking warning, never a date error, and
does not suppress the drop-dead-vs-order-date check; an unset drop-dead
date likewise yields only a warning and no drop-dead error. -/
theorem date_validation_independent (od : OrderData) :
    (∀ o s : Int, od.header.order_date = some o → od.header.ship_date = some s →
      s < o →
      "Ship Date must be on or after Order Date" ∈ (validate_order_before_submission od).1)
    ∧ (∀ o d : Int, od.header.order_date = some o → od.header.drop_dead_date = some d →
      d < o →
      "Drop Dead Date must be on or after Order Date" ∈ (validate_order_before_submission od).1)
    ∧ (∀ s d : Int, od.header.ship_date = some s → od.header.drop_dead_date = some d →
      d < s →
      "Drop Dead Date must be on or after Ship Date" ∈ (validate_order_before_submission od).1)
    ∧ (od.header.ship_date = none →
      "Ship Date is not set" ∈ (validate_order_before_submission od).2
      ∧ "Ship Date must be on or after Order Date" ∉ (validate_order_before_submission od).1
      ∧ "Drop Dead Date must be on or after Ship Date" ∉ (validate_order_before_submission od).1
      ∧ (∀ o d : Int, od.header.order_date = some o → od.header.drop_dead_date = some d →
        d < o →
        "Drop Dead Date must be on or after Order Date" ∈ (validate_order_before_submission od).1))
    ∧ (od.header.drop_dead_date = none →
      "Drop Dead Date is not set" ∈ (validate_order_before_submission od).2
      ∧ "Drop Dead Date must be on or after Order Date" ∉ (validate_order_before_submission od).1
      ∧ "Drop Dead Date must be on or after Ship Date" ∉ (validate_order_before_submission od).1) := by
  refine ⟨?_, ?_, ?_, ?_, ?_⟩
  · intro o s ho hs hlt
    simp [validate_order_before_submission, List.mem_append, mem_errIf,
      mem_product_errors, mem_date_pair_err, ho, hs, hlt]
  · intro o d ho hd hlt
    simp [validate_order_before_submission, List.mem_append, mem_errIf,
      mem_product_errors, mem_date_pair_err, ho, hd, hlt]
  · intro s d hs hd hlt
    simp [validate_order_before_submission, List.mem_append, mem_errIf,
      mem_product_errors, mem_date_pair_err, hs, hd, hlt]
  · intro hs
    refine ⟨?_, ?_, ?_, ?_⟩
    · simp [validate_order_before_submission, List.mem_append, mem_errIf, hs]
    · simp [validate_order_before_submission, List.mem_append, mem_errIf,
        mem_product_errors, mem_date_pair_err, hs]
    · simp [validate_order_before_submission, List.mem_append, mem_errIf,
        mem_product_errors, mem_date_pair_err, hs]
    · intro o d ho hd hlt
      simp [validate_order_before_submission, List.mem_append, mem_errIf,
        mem_product_errors, mem_date_pair_err, ho, hd, hlt]
  · intro hd
    refine ⟨?_, ?_, ?_⟩
    · simp [validate_order_before_submission, List.mem_append, mem_errIf, hd]
    · simp [validate_order_before_submission, List.mem_append, mem_errIf,
        mem_product_errors, mem_date_pair_err, hd]
    · simp [validate_order_before_submission, List.mem_append, mem_errIf,
        mem_product_errors, mem_date_pair_err, hd]

/-- Witness for the hypotheses of `date_validation_independent`, at the
three concrete orders above. -/
theorem date_validation_independent_witness :
    "Ship Date must be on or after Order Date"
      ∈ (validate_order_before_submission lateShipOrder).1
    ∧ "Drop Dead Date must be on or after Order Date"
      ∈ (validate_order_before_submission lateShipOrder).1
    ∧ "Ship Date is not set" ∈ (validate_order_before_submission noShipOrder).2
    ∧ "Ship Date must be on or after Order Date"
      ∉ (validate_order_before_submission noShipOrder).1
    ∧ "Drop Dead Date must be on or after Order Date"
      ∈ (validate_order_before_submission noShipOrder).1
    ∧ "Drop Dead Date is not set" ∈ (validate_order_before_submission noDropDeadOrder).2
    ∧ "Drop Dead Date must be on or after Ship Date"
      ∉ (validate_order_before_submission noDropDeadOrder).1 := by
  refine ⟨?_, ?_, ?_, ?_, ?_, ?_, ?_⟩
  · exact (date_validation_independent lateShipOrder).1 5 3 (by decide) (by decide) (by norm_num)
  · exact (date_validation_independent lateShipOrder).2.1 5 4 (by decide) (by decide) (by norm_num)
  · exact ((date_validation_independent noShipOrder).2.2.2.1 (by decide)).1
  · exact ((date_validation_independent noShipOrder).2.2.2.1 (by decide)).2.1
  · exact ((date_validation_independent noShipOrder).2.2.2.1 (by decide)).2.2.2 10 2 (by decide) (by decide)
      (by norm_num)
  · exact ((date_validation_independent noDropDeadOrder).2.2.2.2 (by decide)).1
  · exact ((date_validation_independent noDropDeadOrder).2.2.2.2 (by decide)).2.2

/-- An order with PO number, customer and all four shipping-address
fields blank, but products with quantities present, a decoration method
set, and consistent dates. -/
def blankHeaderOrder : OrderData :=
  { header :=
      { po_number := "", customer := "",
        shipping_address1 := "", shipping_city := "",
        shipping_state := "", shipping_zip := "",
        order_date := some 0, ship_date := some 1, drop_dead_date := some 2 },
    design_type := "New Design", method := "Screenprint",
    grid := [exampleGridRow] }

/-- C5 counterexample: the order above (PO, customer and shipping
address all blank, everything else satisfied) produces SIX errors, not
the five the claim states — the validator reports Shipping State and
Shipping Zip as two separate errors, not one combined
missing-state-or-zip error. -/
theorem validation_blank_order_counterexample :
    (validate_order_before_submission blankHeaderOrder).1
      = ["PO# is required", "Customer is required", "Shipping Address is required",
        "Shipping City is required", "Shipping State is required",
        "Shipping Zip is required"]
    ∧ (validate_order_before_submission blankHeaderOrder).1.length = 6
    ∧ (validate_order_before_submission blankHeaderOrder).1.length ≠ 5 := by
  refine ⟨by decide, by decide, by decide⟩

/-- C5 amended: an order whose PO number, customer and shipping address
line 1 / city / state / zip are all blank, while products with
quantities are present, the decoration-method check passes and the
dates are consistent, yields exactly these 6 errors, reported together
in one list (PO, customer, address line 1, city, state, zip — state and
zip being separate errors), not just the first failure. -/
theorem validation_blank_order_amended (od : OrderData)
    (hpo : pyStrip od.header.po_number = "")
    (hcust : od.header.customer = "")
    (haddr : pyStrip od.header.shipping_address1 = "")
    (hcity : pyStrip od.header.shipping_city = "")
    (hstate : pyStrip od.header.shipping_state = "")
    (hzip : pyStrip od.header.shipping_zip = "")
    (hprod : validation_has_products od.grid = true)
    (hqty : validation_total_qty od.grid ≠ 0)
    (hdesign : od.design_type ≠ "New Design" ∨ od.method ≠ "")
    (hd1 : ∀ o s : Int, od.header.order_date = some o → od.header.ship_date = some s →
      o ≤ s)
    (hd2 : ∀ o d : Int, od.header.order_date = some o →
      od.header.drop_dead_date = some d → o ≤ d)
    (hd3 : ∀ s d : Int, od.header.ship_date = some s →
      od.header.drop_dead_date = some d → s ≤ d) :
    (validate_order_before_submission od).1
      = ["PO# is required", "Customer is required", "Shipping Address is required",
        "Shipping City is required", "Shipping State is required",
        "Shipping Zip is required"] := by
  have hpe : product_errors od.grid = [] := by
    unfold product_errors
    rw [if_neg (by simp [hprod]), if_neg hqty]
  have hde : ¬ (od.design_type = "New Design" ∧ od.method = "") := by
    rcases hdesign with h | h <;> intro hc <;> exact h (by simp [hc.1, hc.2])
  have he1 : date_pair_err od.header.order_date od.header.ship_date
      "Ship Date must be on or after Order Date" = [] := by
    unfold date_pair_err
    cases ho : od.header.order_date <;> cases hs : od.header.ship_date <;> simp
    exact hd1 _ _ ho hs
  have he2 : date_pair_err od.header.order_date od.header.drop_dead_date
      "Drop Dead Date must be on or after Order Date" = [] := by
    unfold date_pair_err
    cases ho : od.header.order_date <;> cases hd : od.header.drop_dead_date <;> simp
    exact hd2 _ _ ho hd
  have he3 : date_pair_err od.header.ship_date od.header.drop_dead_date
      "Drop Dead Date must be on or after Ship Date" = [] := by
    unfold date_pair_err
    cases hs : od.header.ship_date <;> cases hd : od.header.drop_dead_date <;> simp
    exact hd3 _ _ hs hd
  simp only [validate_order_before_submission, errIf, hpo, hcust, haddr, hcity,
    hstate, hzip, hpe, hde, he1, he2, he3, if_pos rfl, if_neg hde]
  simp

/-- Witness for the hypotheses of `validation_blank_order_amended`, at
the blank-header order. -/
theorem validation_blank_order_amended_witness :
    (validate_order_before_submission blankHeaderOrder).1
      = ["PO# is required", "Customer is required", "Shipping Address is required",
        "Shipping City is required", "Shipping State is required",
        "Shipping Zip is required"] :=
  validation_blank_order_amended blankHeaderOrder rfl rfl rfl rfl rfl rfl
    (by decide) (by decide) (by decide)
    (fun o s ho hs => by
      injection ho with ho
      injection hs with hs
      omega)
    (fun o d ho hd => by
      injection ho with ho
      injection hd with hd
      omega)
    (fun s d hs hd => by
      injection hs with hs
      injection hd with hd
      omega)

lemma filterMap_ite_eq_map_filter {α β : Type} (l : List α) (p : α → Prop)
    [DecidablePred p] (h : α → β) :
    l.filterMap (fun x => if p x then some (h x) else none)
      = (l.filter (fun x => decide (p x))).map h := by
  induction l with
  | nil => rfl
  | cons a t ih => by_cases hp : p a <;> simp [hp, ih]

/-- Filtering out the zero entries does not change a sum of
quantities. -/
lemma sum_filter_pos {α : Type} (l : List α) (f : α → Nat) :
    ((l.filter (fun x => decide (0 < f x))).map f).sum = (l.map f).sum := by
  induction l with
  | nil => rfl
  | cons a t ih =>
    by_cases hp : 0 < f a
    · simp [hp, ih]
    · have : f a = 0 := by omega
      simp [hp, ih, this]

/-- The items of one grid row, as the filtered size list. -/
lemma row_line_items_eq (customer : String) (row : GridRow)
    (hr : pyStrip row.sku ≠ "") :
    row_line_items customer row
      = (sizeCols.filter (fun sz => decide (0 < row.qty sz))).map (fun sz =>
          { customerID := customer, itemCode := (pyStrip row.sku),
            colorCode := (pyStrip row.color), sizeIndex := sizeIdx sz,
            size := sizeLabel sz, quantity := row.qty sz, price := 0 }) := by
  unfold row_line_items
  rw [if_neg hr, filterMap_ite_eq_map_filter]

/-- Every item emitted for a row carries that row's stripped SKU as its
item code. -/
lemma row_items_itemCode (customer : String) (row : GridRow) :
    ∀ it ∈ row_line_items customer row, it.itemCode = pyStrip row.sku := by
  intro it h
  unfold row_line_items at h
  split at h
  · exact absurd h (List.not_mem_nil it)
  · rcases List.mem_filterMap.mp h with ⟨sz, _, hsz⟩
    split at hsz
    · cases hsz
      rfl
    · exact Option.noConfusion hsz

/-- The quantities emitted for one (non-empty-SKU) row sum to the row
total. -/
lemma row_items_quantity_sum (customer : String) (row : GridRow)
    (hr : pyStrip row.sku ≠ "") :
    ((row_line_items customer row).map LineItem.quantity).sum
      = calculate_row_total row := by
  rw [row_line_items_eq customer row hr, List.map_map]
  have h2 : ((sizeCols.filter (fun sz => decide (0 < row.qty sz))).map row.qty).sum
      = calculate_row_total row := sum_filter_pos sizeCols row.qty
  rw [← h2]
  exact congrArg List.sum (List.map_congr_left fun sz _ => rfl)

/-- C6: the export pivot emits exactly one item per (line, size) pair
with positive quantity, skipping empty-SKU lines; output is in grid row
order, with strictly increasing canonical SizeIndex within a row; every
item carries the placeholder price 0.0, the canonical 0-based SizeIndex
of its size label, and a positive quantity; and the quantities exported
for a given SKU sum to that SKU's grid row total.  (The pivot is a pure
function of its arguments, hence deterministic.) -/
theorem export_pivot_properties (customer : String) (grid : List GridRow)
    (r : GridRow) (sku : String) (hsku : sku ≠ "") :
    (pivot_grid_to_line_items customer grid).length
      = ((grid.filter (fun row => decide ((pyStrip row.sku) ≠ ""))).map
          (fun row => (sizeCols.filter (fun sz => decide (0 < row.qty sz))).length)).sum
    ∧ pivot_grid_to_line_items customer (r :: grid)
      = row_line_items customer r ++ pivot_grid_to_line_items customer grid
    ∧ ((row_line_items customer r).map LineItem.sizeIndex).Pairwise (· < ·)
    ∧ (∀ it ∈ pivot_grid_to_line_items customer grid,
        it.price = 0 ∧ 0 < it.quantity ∧ it.itemCode ≠ ""
        ∧ ∃ sz : Size, it.size = sizeLabel sz ∧ it.sizeIndex = sizeIdx sz)
    ∧ (((pivot_grid_to_line_items customer grid).filter
          (fun it => it.itemCode == sku)).map LineItem.quantity).sum
      = ((grid.filter (fun row => (pyStrip row.sku) == sku)).map
          calculate_row_total).sum := by
  refine ⟨?_, rfl, ?_, ?_, ?_⟩
  · induction grid with
    | nil => rfl
    | cons r0 t ih =>
      show (row_line_items customer r0 ++ pivot_grid_to_line_items customer t).length = _
      rw [List.length_append, ih]
      by_cases hr : pyStrip r0.sku = ""
      · simp [row_line_items, hr]
      · rw [row_line_items_eq customer r0 hr, List.length_map]
        simp [hr]
  · by_cases hr : pyStrip r.sku = ""
    · simp [row_line_items, hr]
    · rw [row_line_items_eq customer r hr, List.map_map]
      have hsub : ((sizeCols.filter (fun sz => decide (0 < r.qty sz))).map
          (LineItem.sizeIndex ∘ fun sz =>
            { customerID := customer, itemCode := (pyStrip r.sku),
              colorCode := (pyStrip r.color), sizeIndex := sizeIdx sz,
              size := sizeLabel sz, quantity := r.qty sz, price := 0 })).Sublist
          (sizeCols.map sizeIdx) :=
        List.Sublist.map _ (List.filter_sublist _)
      exact List.Pairwise.sublist hsub (by decide)
  · induction grid with
    | nil => intro it h; exact absurd h (List.not_mem_nil it)
    | cons r0 t ih =>
      intro it hmem
      rcases List.mem_append.mp hmem with h | h
      · by_cases hr : pyStrip r0.sku = ""
        · rw [row_line_items, if_pos hr] at h
          exact absurd h (List.not_mem_nil it)
        · rw [row_line_items_eq customer r0 hr] at h
          rcases List.mem_map.mp h with ⟨sz, hsz, rfl⟩
          have hq : 0 < r0.qty sz := by
            have := List.of_mem_filter hsz
            simpa using this
          exact ⟨rfl, hq, hr, sz, rfl, rfl⟩
      · exact ih it h
  · induction grid with
    | nil => rfl
    | cons r0 t ih =>
      show ((((row_line_items customer r0)
          ++ pivot_grid_to_line_items customer t).filter
            (fun it => it.itemCode == sku)).map LineItem.quantity).sum = _
      rw [List.filter_append, List.map_append, List.sum_append, ih]
      by_cases heq : pyStrip r0.sku = sku
      · have hkeep : (row_line_items customer r0).filter
            (fun it => it.itemCode == sku) = row_line_items customer r0 := by
          apply List.filter_eq_self.mpr
          intro it hit
          simp [row_items_itemCode customer r0 it hit, heq]
        have hr : pyStrip r0.sku ≠ "" := by
          rw [heq]
          exact hsku
        rw [hkeep, row_items_quantity_sum customer r0 hr,
          List.filter_cons_of_pos (by simp [heq])]
        simp
      · have hdrop : (row_line_items customer r0).filter
            (fun it => it.itemCode == sku) = [] := by
          apply List.filter_eq_nil_iff.mpr
          intro it hit
          simp [row_items_itemCode customer r0 it hit, heq]
        rw [hdrop, List.filter_cons_of_neg (by simp [heq])]
        simp

/-- Witness for the hypothesis of `export_pivot_properties`: the
quantity-sum equation at the concrete example row. -/
theorem export_pivot_properties_witness :
    (((pivot_grid_to_line_items "Cust" [exampleGridRow]).filter
        (fun it => it.itemCode == "TS100")).map LineItem.quantity).sum
      = (([exampleGridRow].filter (fun row => (pyStrip row.sku) == "TS100")).map
          calculate_row_total).sum :=
  (export_pivot_properties "Cust" [exampleGridRow] exampleGridRow "TS100"
    (by decide)).2.2.2.2

/-- C8: from a fresh counter the `n` successive generated submission
numbers are exactly `"#1001", "#1002", ...` — strictly increasing,
advancing by 1, no gaps, no reuse — and the first call returns
`#1001`; each further call increments the stored counter by exactly 1. -/
theorem submission_numbering_monotone (n : Nat) (st : Option Nat) :
    run_submissions n none = (List.range n).map (fun i => "#" ++ toString (1001 + i))
    ∧ (generate_submission_number none).1 = "#1001"
    ∧ (generate_submission_number (some (generate_submission_number st).2)).2
        = (generate_submission_number st).2 + 1 := by
  refine ⟨?_, rfl, rfl⟩
  cases n with
  | zero => simp [run_submissions]
  | succ n =>
    rw [List.range_succ_eq_map, List.map_cons, List.map_map]
    show ("#" ++ toString 1001) :: run_submissions n (some 1001) = _
    rw [run_submissions_from n 1001]
    refine congrArg₂ _ (by norm_num) ?_
    refine List.map_congr_left fun i _ => ?_
    have : 1001 + 1 + i = 1001 + (i + 1) := by omega
    simp [Function.comp, this]
